import Mathlib

/-
Verification of the response-classification core, credential attachment and
request serialization of the toggl_oxide API client (src/api.rs), over a
shallow embedding.  JSON text parsing is out of scope of the repository (it
is delegated to serde_json), so the text-to-value step is a parameter of the
embedding; shape deserializers (serde Deserialize impls) are likewise
parameters of the generic functions, with the concrete shapes used by the
repository (Vec<String> alias DefaultErrorJson, i64, etc.) embedded as
concrete deserializer functions.
-/

namespace Toggl

/-- JSON values, embedding serde_json::Value.  Numbers are embedded as
integers: every number the repository serializes or inspects is an i64. -/
inductive Json where
  | null : Json
  | bool : Bool → Json
  | num : Int → Json
  | str : String → Json
  | arr : List Json → Json
  | obj : List (String × Json) → Json
  deriving Repr

/-- Embeds src/api.rs ServerError: status code, optional raw text, optional
structured error value. -/
structure ServerError (ErrorShape : Type) where
  status_code : Nat
  text : Option String
  parsed_json : Option ErrorShape
  deriving Repr, DecidableEq

/-- Embeds src/api.rs ParsingError: the body text and the optional
deserialization error message. -/
structure ParsingError where
  text : String
  err : Option String
  deriving Repr, DecidableEq

/-- Embeds src/api.rs ApiError: all errors possible when making a request.
The reqwest::Error held by Network is embedded as its message string. -/
inductive ApiError (ErrorShape : Type) where
  | Network : String → ApiError ErrorShape
  | Server : ServerError ErrorShape → ApiError ErrorShape
  | Parsing : ParsingError → ApiError ErrorShape
  deriving Repr, DecidableEq

/-- Embeds src/api.rs ResponseJson: a body that matched the payload shape or
the error shape. -/
inductive ResponseJson (BlobJson ErrorJson : Type) where
  | BlobJson : BlobJson → ResponseJson BlobJson ErrorJson
  | ErrorJson : ErrorJson → ResponseJson BlobJson ErrorJson
  deriving Repr, DecidableEq

/-- The outcome of self.send() in src/api.rs get_json: either a transport
failure (reqwest Err, embedded as its message) or an HTTP response with a
status code and the result of resp.text() (None when the text cannot be
fetched). -/
inductive Outcome where
  | transportFailure : String → Outcome
  | response : Nat → Option String → Outcome
  deriving Repr, DecidableEq

/-- Embeds the custom Deserialize impl of ResponseJson in src/api.rs lines
75-91: first parse the text to a Value (textParse, the serde_json primitive),
then try BlobJson, then ErrorJson, and on double failure produce the combined
diagnostic message. -/
def ResponseJson.deserialize {BlobJson ErrorJson : Type}
    (blobDe : Json → Except String BlobJson)
    (errDe : Json → Except String ErrorJson)
    (textParse : String → Except String Json)
    (txt : String) : Except String (ResponseJson BlobJson ErrorJson) :=
  match textParse txt with
  | Except.error e => Except.error e
  | Except.ok value =>
    match blobDe value with
    | Except.ok blob_json => Except.ok (ResponseJson.BlobJson blob_json)
    | Except.error outer_error =>
      match errDe value with
      | Except.ok errr_json => Except.ok (ResponseJson.ErrorJson errr_json)
      | Except.error inner_error =>
          Except.error ("Matching BlobJson failed because of " ++ outer_error ++
            ". Matching ErrorJson failed because of " ++ inner_error)

/-- Embeds serde_json::from_str::<Shape>(&txt) for a single shape: parse the
text to a Value, then run the shape deserializer. -/
def from_str {Shape : Type} (de : Json → Except String Shape)
    (textParse : String → Except String Json) (txt : String) :
    Except String Shape :=
  match textParse txt with
  | Except.error e => Except.error e
  | Except.ok value => de value

/-- Embeds src/api.rs get_json (lines 93-137), the response classifier:
transport failure becomes Network; a non-200 status becomes Server carrying
only the raw text; at status 200 the body is run through
ResponseJson.deserialize, giving Ok on a payload match, Server carrying the
parsed error on an error-shape match, and Parsing on a double failure; an
unfetchable body at status 200 becomes Parsing with a placeholder text. -/
def get_json {BlobJson ErrorJson : Type}
    (blobDe : Json → Except String BlobJson)
    (errDe : Json → Except String ErrorJson)
    (textParse : String → Except String Json)
    (outcome : Outcome) : Except (ApiError ErrorJson) BlobJson :=
  match outcome with
  | Outcome.transportFailure err => Except.error (ApiError.Network err)
  | Outcome.response status text =>
    if status ≠ 200 then
      Except.error (ApiError.Server ⟨status, text, none⟩)
    else
      match text with
      | some txt =>
        match ResponseJson.deserialize blobDe errDe textParse txt with
        | Except.ok (ResponseJson.ErrorJson errors) =>
            Except.error (ApiError.Server ⟨status, none, some errors⟩)
        | Except.ok (ResponseJson.BlobJson blob) => Except.ok blob
        | Except.error err => Except.error (ApiError.Parsing ⟨txt, some err⟩)
      | none =>
          Except.error (ApiError.Parsing ⟨"Couldn't fetch response text.", none⟩)

/-- Embeds the derived deserializer of i64 (used as a concrete payload shape
in tests below). -/
def intDe : Json → Except String Int
  | Json.num n => Except.ok n
  | _ => Except.error "invalid type: not an integer"

/-- Embeds the derived deserializer of String. -/
def stringDe : Json → Except String String
  | Json.str s => Except.ok s
  | _ => Except.error "invalid type: not a string"

/-- Embeds the derived deserializer of DefaultErrorJson = Vec<String>
(src/api.rs line 52), the error shape of most endpoints. -/
def vecStringDe : Json → Except String (List String)
  | Json.arr xs => xs.mapM stringDe
  | _ => Except.error "invalid type: not an array of strings"

/-- A concrete instance of the serde_json text-to-value primitive, defined on
the body texts used as test inputs below; everything else is a syntax
error. -/
def textParseFixture : String → Except String Json := fun s =>
  if s = "1" then Except.ok (Json.num 1)
  else if s = "true" then Except.ok (Json.bool true)
  else if s = "[\"Missing parameter: start\"]" then
    Except.ok (Json.arr [Json.str "Missing parameter: start"])
  else Except.error "expected value at line 1 column 1"

/-- The variant index of a classified result: 0 = Ok payload, 1 = Network,
2 = Server, 3 = Parsing. -/
def resultVariant {BlobJson ErrorJson : Type} :
    Except (ApiError ErrorJson) BlobJson → Fin 4
  | Except.ok _ => 0
  | Except.error (ApiError.Network _) => 1
  | Except.error (ApiError.Server _) => 2
  | Except.error (ApiError.Parsing _) => 3

/-- Claim C5: a transport failure is classified as Network immediately; the
result does not depend on the deserializers or on any status or body, since
the transportFailure outcome carries none. -/
theorem c5_transport_failure {BlobJson ErrorJson : Type}
    (blobDe : Json → Except String BlobJson)
    (errDe : Json → Except String ErrorJson)
    (textParse : String → Except String Json) (e : String) :
    get_json blobDe errDe textParse (Outcome.transportFailure e) =
      Except.error (ApiError.Network e) := rfl

/-- Claim C10: a status-200 response whose text cannot be fetched is
classified as Parsing with the fixed placeholder text and err = none, for
every choice of deserializers. -/
theorem c10_unfetchable_body {BlobJson ErrorJson : Type}
    (blobDe : Json → Except String BlobJson)
    (errDe : Json → Except String ErrorJson)
    (textParse : String → Except String Json) :
    get_json blobDe errDe textParse (Outcome.response 200 none) =
      Except.error (ApiError.Parsing ⟨"Couldn't fetch response text.", none⟩) := rfl

/-- Claim C4: a response whose status is not 200 is classified as Server
carrying the raw text (when fetchable) and parsed_json = none, for every
choice of deserializers — the body is never run through the error shape. -/
theorem c4_non200_raw_text {BlobJson ErrorJson : Type}
    (blobDe : Json → Except String BlobJson)
    (errDe : Json → Except String ErrorJson)
    (textParse : String → Except String Json)
    (status : Nat) (text : Option String) (h : status ≠ 200) :
    get_json blobDe errDe textParse (Outcome.response status text) =
      Except.error (ApiError.Server ⟨status, text, none⟩) := by
  unfold get_json
  simp [h]

/-- Witness for C4 at status 404 with body text "oops". -/
theorem c4_witness :
    (404 ≠ 200) ∧
    get_json intDe vecStringDe textParseFixture (Outcome.response 404 (some "oops")) =
      Except.error (ApiError.Server ⟨404, some "oops", none⟩) :=
  ⟨by decide, c4_non200_raw_text intDe vecStringDe textParseFixture 404 (some "oops")
    (by decide)⟩

/-- Claim C6: classification is a total function (a Lean def) and every
outcome is mapped to exactly one of the four variants: the result is one of
Ok, Network, Server, Parsing, and its variant index is unique. -/
theorem c6_total {BlobJson ErrorJson : Type}
    (blobDe : Json → Except String BlobJson)
    (errDe : Json → Except String ErrorJson)
    (textParse : String → Except String Json) (o : Outcome) :
    ((∃ v, get_json blobDe errDe textParse o = Except.ok v) ∨
     (∃ e, get_json blobDe errDe textParse o = Except.error (ApiError.Network e)) ∨
     (∃ se, get_json blobDe errDe textParse o = Except.error (ApiError.Server se)) ∨
     (∃ pe, get_json blobDe errDe textParse o = Except.error (ApiError.Parsing pe))) ∧
    (∃! i : Fin 4, resultVariant (get_json blobDe errDe textParse o) = i) := by
  constructor
  · rcases hr : get_json blobDe errDe textParse o with e | v
    · rcases e with n | se | pe
      · exact Or.inr (Or.inl ⟨n, rfl⟩)
      · exact Or.inr (Or.inr (Or.inl ⟨se, rfl⟩))
      · exact Or.inr (Or.inr (Or.inr ⟨pe, rfl⟩))
    · exact Or.inl ⟨v, rfl⟩
  · exact ⟨resultVariant (get_json blobDe errDe textParse o), rfl,
      fun y hy => hy.symm⟩

/-- Body text of spec Scenario B: a JSON array with one error message. -/
def bodyB : String := "[\"Missing parameter: start\"]"

/-- Claim C1 counterexample: at status 400 the body "1" deserializes as the
payload shape (i64), yet get_json returns the Server variant with the raw
text, not Success — the claim fails for non-200 responses. -/
theorem c1_counterexample :
    from_str intDe textParseFixture "1" = Except.ok 1 ∧
    get_json intDe vecStringDe textParseFixture (Outcome.response 400 (some "1")) =
      Except.error (ApiError.Server ⟨400, some "1", none⟩) ∧
    get_json intDe vecStringDe textParseFixture (Outcome.response 400 (some "1")) ≠
      (Except.ok 1 : Except (ApiError (List String)) Int) :=
  ⟨rfl, rfl, fun h => Except.noConfusion h⟩

/-- Claim C1 (amended to status 200): when the body text deserializes as the
payload shape, get_json returns Success with exactly that value, for every
error-shape deserializer — in particular even when the body would also
deserialize as the error shape, since the payload shape is attempted
first. -/
theorem c1_payload_precedence {BlobJson ErrorJson : Type}
    (blobDe : Json → Except String BlobJson)
    (errDe : Json → Except String ErrorJson)
    (textParse : String → Except String Json) (txt : String) (v : BlobJson)
    (h : from_str blobDe textParse txt = Except.ok v) :
    get_json blobDe errDe textParse (Outcome.response 200 (some txt)) =
      Except.ok v := by
  unfold from_str at h
  cases htp : textParse txt with
  | error e => rw [htp] at h; simp at h
  | ok value =>
      rw [htp] at h
      simp at h
      simp [get_json, ResponseJson.deserialize, htp, h]

/-- Witness for C1 (amended): status 200 with body "1" under the i64 payload
shape gives Success 1 — here with an error shape (Vec<String>) that does not
match; a tie witness is the identity error shape, covered by the
quantification over errDe. -/
theorem c1_witness :
    from_str intDe textParseFixture "1" = Except.ok 1 ∧
    get_json intDe vecStringDe textParseFixture (Outcome.response 200 (some "1")) =
      Except.ok 1 :=
  ⟨rfl, c1_payload_precedence intDe vecStringDe textParseFixture "1" 1 rfl⟩

/-- The parsed_json carried by a Server classification, if any. -/
def serverParsedJson {BlobJson ErrorJson : Type} :
    Except (ApiError ErrorJson) BlobJson → Option ErrorJson
  | Except.error (ApiError.Server se) => se.parsed_json
  | _ => none

/-- Claim C2 counterexample: at status 400 (spec Scenario B) the body
deserializes as the error shape Vec<String> and not as the payload shape,
yet get_json returns Server carrying the raw text with parsed_json = none —
it does not carry the parsed structured value. -/
theorem c2_counterexample :
    from_str intDe textParseFixture bodyB =
      Except.error "invalid type: not an integer" ∧
    from_str vecStringDe textParseFixture bodyB =
      Except.ok ["Missing parameter: start"] ∧
    get_json intDe vecStringDe textParseFixture (Outcome.response 400 (some bodyB)) =
      Except.error (ApiError.Server ⟨400, some bodyB, none⟩) ∧
    serverParsedJson (get_json intDe vecStringDe textParseFixture
      (Outcome.response 400 (some bodyB))) = none :=
  ⟨rfl, rfl, rfl, rfl⟩

/-- Claim C2 (amended to status 200): when the body deserializes as the
error shape and not as the payload shape, get_json returns Server carrying
exactly the parsed structured value (with text = none). -/
theorem c2_error_shape {BlobJson ErrorJson : Type}
    (blobDe : Json → Except String BlobJson)
    (errDe : Json → Except String ErrorJson)
    (textParse : String → Except String Json) (txt eb : String) (e : ErrorJson)
    (hb : from_str blobDe textParse txt = Except.error eb)
    (he : from_str errDe textParse txt = Except.ok e) :
    get_json blobDe errDe textParse (Outcome.response 200 (some txt)) =
      Except.error (ApiError.Server ⟨200, none, some e⟩) := by
  unfold from_str at hb he
  cases htp : textParse txt with
  | error er => rw [htp] at he; simp at he
  | ok value =>
      rw [htp] at hb
      rw [htp] at he
      simp at hb he
      simp [get_json, ResponseJson.deserialize, htp, hb, he]

/-- Witness for C2 (amended): Scenario B at status 200: the generic string
array body is carried as the parsed error value. -/
theorem c2_witness :
    from_str intDe textParseFixture bodyB =
      Except.error "invalid type: not an integer" ∧
    from_str vecStringDe textParseFixture bodyB =
      Except.ok ["Missing parameter: start"] ∧
    get_json intDe vecStringDe textParseFixture (Outcome.response 200 (some bodyB)) =
      Except.error (ApiError.Server ⟨200, none, some ["Missing parameter: start"]⟩) :=
  ⟨rfl, rfl, c2_error_shape intDe vecStringDe textParseFixture bodyB
    "invalid type: not an integer" ["Missing parameter: start"] rfl rfl⟩

/-- Holds when a classified result is the Parsing variant carrying the given
body text and a diagnostic message that contains both given failure causes
as substrings. -/
def parsingWithBothCauses {BlobJson ErrorJson : Type}
    (r : Except (ApiError ErrorJson) BlobJson) (txt eb ee : String) : Prop :=
  match r with
  | Except.error (ApiError.Parsing pe) =>
      pe.text = txt ∧
        match pe.err with
        | some msg => List.IsInfix eb.data msg.data ∧ List.IsInfix ee.data msg.data
        | none => False
  | _ => False

/-- Claim C3: at status 200, when the body deserializes as neither shape,
get_json returns Parsing carrying the original text and a diagnostic whose
text contains both the payload-shape failure cause and the error-shape
failure cause.  (When the body is not valid JSON at all, both causes are the
same syntax error and the diagnostic is that error.) -/
theorem c3_dual_cause {BlobJson ErrorJson : Type}
    (blobDe : Json → Except String BlobJson)
    (errDe : Json → Except String ErrorJson)
    (textParse : String → Except String Json) (txt eb ee : String)
    (hb : from_str blobDe textParse txt = Except.error eb)
    (he : from_str errDe textParse txt = Except.error ee) :
    parsingWithBothCauses
      (get_json blobDe errDe textParse (Outcome.response 200 (some txt))) txt eb ee := by
  unfold from_str at hb he
  cases htp : textParse txt with
  | error er =>
      rw [htp] at hb
      rw [htp] at he
      simp at hb he
      subst hb
      subst he
      simp [get_json, ResponseJson.deserialize, htp, parsingWithBothCauses]
  | ok value =>
      rw [htp] at hb
      rw [htp] at he
      simp at hb he
      simp [get_json, ResponseJson.deserialize, htp, hb, he, parsingWithBothCauses]
      constructor
      · exact ⟨("Matching BlobJson failed because of ").data,
          (". Matching ErrorJson failed because of " ++ ee).data,
          by simp [String.data_append, List.append_assoc]⟩
      · exact ⟨("Matching BlobJson failed because of " ++ eb ++
            ". Matching ErrorJson failed because of ").data, [],
          by simp [String.data_append, List.append_assoc]⟩

/-- Witness for C3: the body "true" parses as JSON but matches neither the
i64 payload shape nor the Vec<String> error shape; the classification is
Parsing with a diagnostic containing both causes. -/
theorem c3_witness :
    from_str intDe textParseFixture "true" =
      Except.error "invalid type: not an integer" ∧
    from_str vecStringDe textParseFixture "true" =
      Except.error "invalid type: not an array of strings" ∧
    parsingWithBothCauses
      (get_json intDe vecStringDe textParseFixture (Outcome.response 200 (some "true")))
      "true" "invalid type: not an integer" "invalid type: not an array of strings" :=
  ⟨rfl, rfl, c3_dual_cause intDe vecStringDe textParseFixture "true"
    "invalid type: not an integer" "invalid type: not an array of strings" rfl rfl⟩

/-- Embeds the Api struct of src/api.rs (the blocking client itself is
transport state out of scope): it holds the api_key credential. -/
structure Api where
  api_key : String
  deriving Repr, DecidableEq

/-- Embeds a reqwest blocking RequestBuilder as far as the repository
observes it: the basic-auth header it carries, as (username, password). -/
structure RequestBuilder where
  basic_auth_header : Option (String × Option String)
  deriving Repr, DecidableEq

/-- Embeds reqwest RequestBuilder::basic_auth(username, password). -/
def RequestBuilder.basic_auth (_self : RequestBuilder) (username : String)
    (password : Option String) : RequestBuilder :=
  ⟨some (username, password)⟩

/-- Embeds src/api.rs add_api_key (lines 144-148):
self.basic_auth(api.api_key, Some("api_token")) — the api key is passed as
the username argument and the literal "api_token" as the password. -/
def RequestBuilder.add_api_key (self : RequestBuilder) (api : Api) :
    RequestBuilder :=
  self.basic_auth api.api_key (some "api_token")

/-- Claim C7 counterexample: with api key "SECRET", the attached basic-auth
header has username "SECRET" and password "api_token" — not username
"api_token" with the key as password, as the claim states. -/
theorem c7_counterexample :
    (RequestBuilder.add_api_key ⟨none⟩ ⟨"SECRET"⟩).basic_auth_header =
      some ("SECRET", some "api_token") ∧
    (RequestBuilder.add_api_key ⟨none⟩ ⟨"SECRET"⟩).basic_auth_header ≠
      some ("api_token", some "SECRET") :=
  ⟨rfl, by decide⟩

/-- Claim C7 (amended): add_api_key attaches a basic-auth header whose
username is the caller's api key and whose password is the fixed literal
"api_token". -/
theorem c7_basic_auth (req : RequestBuilder) (key : String) :
    (RequestBuilder.add_api_key req ⟨key⟩).basic_auth_header =
      some (key, some "api_token") := rfl

/-- A datetime, embedded as its ISO-8601 rendering: the repository only
moves chrono DateTime values between JSON strings. -/
structure DateTime where
  iso : String
  deriving Repr, DecidableEq

/-- Embeds src/api.rs TimeEntry (lines 151-209), field for field. -/
structure TimeEntry where
  id : Option Int
  description : Option String
  wid : Option Int
  pid : Option Int
  tid : Option Int
  billable : Option Bool
  start : DateTime
  stop : Option DateTime
  duration : Int
  created_with : Option String
  tags : Option (List String)
  duronly : Option Bool
  «at» : Option DateTime
  deriving Repr, DecidableEq

/-- The serde encoding of an optional struct field marked
skip_serializing_if Option::is_none: absent when None, one key when Some. -/
def optField {α : Type} (name : String) (o : Option α) (enc : α → Json) :
    List (String × Json) :=
  match o with
  | none => []
  | some v => [(name, enc v)]

/-- serde encoding of i64. -/
def encInt : Int → Json := Json.num

/-- serde encoding of String. -/
def encStr : String → Json := Json.str

/-- serde encoding of bool. -/
def encBool : Bool → Json := Json.bool

/-- chrono serde encoding of DateTime<Utc>: an ISO-8601 string. -/
def encDateTime : DateTime → Json := fun d => Json.str d.iso

/-- serde encoding of Vec<String>. -/
def encStrList : List String → Json := fun ts => Json.arr (ts.map Json.str)

/-- Embeds the derived serde Serialize of TimeEntry: fields in declaration
order, every Option field marked skip_serializing_if Option::is_none
omitted when None. -/
def TimeEntry.serialize (te : TimeEntry) : Json :=
  Json.obj (optField "id" te.id encInt ++
    optField "description" te.description encStr ++
    optField "wid" te.wid encInt ++
    optField "pid" te.pid encInt ++
    optField "tid" te.tid encInt ++
    optField "billable" te.billable encBool ++
    [("start", encDateTime te.start)] ++
    optField "stop" te.stop encDateTime ++
    [("duration", encInt te.duration)] ++
    optField "created_with" te.created_with encStr ++
    optField "tags" te.tags encStrList ++
    optField "duronly" te.duronly encBool ++
    optField "at" te.«at» encDateTime)

/-- The keys of a serialized JSON object. -/
def jsonKeys : Json → List String
  | Json.obj fields => fields.map Prod.fst
  | _ => []

/-- Membership in the encoding of one optional field. -/
theorem mem_optField {α : Type} (p : String × Json) (name : String)
    (o : Option α) (enc : α → Json) :
    p ∈ optField name o enc ↔ ∃ v, o = some v ∧ p = (name, enc v) := by
  cases o <;> simp [optField]

/-- Claim C8: the serialized JSON of a TimeEntry contains no key for any
optional field that is None — each unset optional field is omitted rather
than emitted as null. -/
theorem c8_omit_none (te : TimeEntry) :
    (te.id = none → ¬ "id" ∈ jsonKeys te.serialize) ∧
    (te.description = none → ¬ "description" ∈ jsonKeys te.serialize) ∧
    (te.wid = none → ¬ "wid" ∈ jsonKeys te.serialize) ∧
    (te.pid = none → ¬ "pid" ∈ jsonKeys te.serialize) ∧
    (te.tid = none → ¬ "tid" ∈ jsonKeys te.serialize) ∧
    (te.billable = none → ¬ "billable" ∈ jsonKeys te.serialize) ∧
    (te.stop = none → ¬ "stop" ∈ jsonKeys te.serialize) ∧
    (te.created_with = none → ¬ "created_with" ∈ jsonKeys te.serialize) ∧
    (te.tags = none → ¬ "tags" ∈ jsonKeys te.serialize) ∧
    (te.duronly = none → ¬ "duronly" ∈ jsonKeys te.serialize) ∧
    (te.«at» = none → ¬ "at" ∈ jsonKeys te.serialize) := by
  refine ⟨?_, ?_, ?_, ?_, ?_, ?_, ?_, ?_, ?_, ?_, ?_⟩ <;>
    (intro h hmem;
     simp only [TimeEntry.serialize, jsonKeys, List.map_append, List.mem_append,
       List.mem_map, mem_optField, h, List.mem_singleton, Prod.mk.injEq,
       String.reduceEq, Option.some.injEq, List.not_mem_nil, exists_eq_left,
       false_and, and_false, exists_false, or_false, false_or, or_self] at hmem;
     simp at hmem)

/-- A TimeEntry with every optional field unset (only the required start and
duration are present). -/
def teAllNone : TimeEntry :=
  ⟨none, none, none, none, none, none, ⟨"2024-01-01T00:00:00Z"⟩, none, 400,
    none, none, none, none⟩

/-- Witness for C8: with all optional fields unset, the serialized keys are
exactly start and duration, and in particular the unset id key is absent. -/
theorem c8_witness :
    jsonKeys (TimeEntry.serialize teAllNone) = ["start", "duration"] ∧
    ¬ "id" ∈ jsonKeys (TimeEntry.serialize teAllNone) :=
  ⟨rfl, (c8_omit_none teAllNone).1 rfl⟩

/-- serde encoding of Vec<i64>: a JSON array of numbers. -/
def encIntList : List Int → Json := fun xs => Json.arr (xs.map Json.num)

/-- Embeds src/api.rs ReportsParams (lines 479-560), field for field; every
Option field is marked skip_serializing_if Option::is_none. -/
structure ReportsParams where
  user_agent : String
  workspace_id : Int
  since : Option DateTime
  «until» : Option DateTime
  billable : Option String
  client_ids : Option (List Int)
  project_ids : Option (List Int)
  user_ids : Option (List Int)
  members_of_group_ids : Option (List Int)
  or_members_of_group_ids : Option (List Int)
  tag_ids : Option (List Int)
  task_ids : Option (List Int)
  time_entry_ids : Option (List Int)
  description : Option String
  without_description : Option Bool
  order_field : Option String
  order_desc : Option String
  distinct_rates : Option String
  rounding : Option String
  display_hours : Option String
  deriving Repr, DecidableEq

/-- Embeds ReportsParams::new: only user_agent and workspace_id set, the
rest Default (None). -/
def ReportsParams.new (user_agent : String) (workspace_id : Int) :
    ReportsParams :=
  ⟨user_agent, workspace_id, none, none, none, none, none, none, none, none,
    none, none, none, none, none, none, none, none, none, none⟩

/-- Embeds src/api.rs ReportsDetailedParams: the flattened ReportsParams
plus the page number. -/
structure ReportsDetailedParams where
  reports_params : ReportsParams
  page : Int
  deriving Repr, DecidableEq

/-- Embeds ReportsDetailedParams::new. -/
def ReportsDetailedParams.new (user_agent : String) (workspace_id page : Int) :
    ReportsDetailedParams :=
  ⟨ReportsParams.new user_agent workspace_id, page⟩

/-- Embeds serde_json::to_value(ReportsDetailedParams): serde(flatten) puts
the ReportsParams fields and page into one map, None fields are skipped, and
serde_json's default map (a BTreeMap) yields the keys in sorted order, which
is the order the Rust for-loop over map.into_iter() observes. -/
def reportsDetailedToValue (p : ReportsDetailedParams) : Json :=
  Json.obj (optField "billable" p.reports_params.billable encStr ++
    optField "client_ids" p.reports_params.client_ids encIntList ++
    optField "description" p.reports_params.description encStr ++
    optField "display_hours" p.reports_params.display_hours encStr ++
    optField "distinct_rates" p.reports_params.distinct_rates encStr ++
    optField "members_of_group_ids" p.reports_params.members_of_group_ids encIntList ++
    optField "or_members_of_group_ids" p.reports_params.or_members_of_group_ids encIntList ++
    optField "order_desc" p.reports_params.order_desc encStr ++
    optField "order_field" p.reports_params.order_field encStr ++
    [("page", Json.num p.page)] ++
    optField "project_ids" p.reports_params.project_ids encIntList ++
    optField "rounding" p.reports_params.rounding encStr ++
    optField "since" p.reports_params.since encDateTime ++
    optField "tag_ids" p.reports_params.tag_ids encIntList ++
    optField "task_ids" p.reports_params.task_ids encIntList ++
    optField "time_entry_ids" p.reports_params.time_entry_ids encIntList ++
    optField "until" p.reports_params.«until» encDateTime ++
    [("user_agent", Json.str p.reports_params.user_agent)] ++
    optField "user_ids" p.reports_params.user_ids encIntList ++
    optField "without_description" p.reports_params.without_description encBool ++
    [("workspace_id", Json.num p.reports_params.workspace_id)])

/-- A URL as built by Url::parse_with_params: the fixed base plus the query
parameter pairs. -/
structure Url where
  base : String
  query : List (String × String)
  deriving Repr, DecidableEq

/-- The reports endpoint base URL (src/api.rs line 9). -/
def REPORTS_API_URL : String :=
  "https://api.track.toggl.com/reports/api/v2/details"

/-- Embeds the body of the for-loop match in to_url (src/api.rs lines
597-617), producing the query value for one serialized field; the two
panics are embedded as errors. -/
def valueToQueryItem (key : String) (wrapped_val : Json) :
    Except String (Option String) :=
  match wrapped_val with
  | Json.bool val => Except.ok (some (toString val))
  | Json.num val => Except.ok (some (toString val))
  | Json.str val => Except.ok (some val)
  | Json.arr val => do
      let strs ← val.mapM (fun x =>
        match x with
        | Json.str s => Except.ok s
        | _ => Except.error "Shouldn't happen.")
      Except.ok (some (String.intercalate "," strs))
  | Json.obj _ => Except.error ("Key " ++ key ++ " had unexpcted val")
  | Json.null => Except.ok none

/-- Embeds the for-loop of to_url: Null values are skipped, the rest are
converted and pushed in iteration order. -/
def buildQueryParams :
    List (String × Json) → Except String (List (String × String))
  | [] => Except.ok []
  | (key, wrapped_val) :: rest =>
    match wrapped_val with
    | Json.null => buildQueryParams rest
    | v => do
        let to_append ← valueToQueryItem key v
        let qs ← buildQueryParams rest
        match to_append with
        | some item => Except.ok ((key, item) :: qs)
        | none => Except.ok qs

/-- Embeds src/api.rs ReportsDetailedParams::to_url (lines 589-627), with
panics embedded as errors. -/
def ReportsDetailedParams.to_url (p : ReportsDetailedParams) :
    Except String Url :=
  match reportsDetailedToValue p with
  | Json.obj map =>
      match buildQueryParams map with
      | Except.ok query_params => Except.ok ⟨REPORTS_API_URL, query_params⟩
      | Except.error e => Except.error e
  | _ => Except.error "unexpected val"

/-- A ReportsDetailedParams with an array-valued parameter set. -/
def reportsParamsWithClientIds : ReportsDetailedParams :=
  ⟨{ ReportsParams.new "agent" 1 with client_ids := some [1, 2] }, 1⟩

/-- Claim C9: with no array-valued parameter set, to_url flattens the
parameter group into one query namespace, skipping the unset parameters —
but the moment an array-valued parameter such as client_ids is set, the
code reaches the panic "Shouldn't happen." (embedded as an error) instead
of producing the comma-joined value "1,2", because a Vec<i64> serializes as
an array of JSON numbers and the conversion only accepts string
elements. -/
theorem c9_array_param_panics :
    ReportsDetailedParams.to_url (ReportsDetailedParams.new "agent" 1 1) =
      Except.ok ⟨REPORTS_API_URL,
        [("page", "1"), ("user_agent", "agent"), ("workspace_id", "1")]⟩ ∧
    ReportsDetailedParams.to_url reportsParamsWithClientIds =
      Except.error "Shouldn't happen." :=
  ⟨rfl, rfl⟩

end Toggl
